import Mathlib

/-!
# Verification of the `sftp.js` SFTPClient facade

A shallow embedding of `src/index.ts` (class `SFTPClient`). Each facade
method is translated into a pure Lean function over an explicit client
state (`SFTPClientState`, the `connected` flag and the stored `config`)
and an oracle (`World`) supplying the outcomes of every call into the
underlying `ssh2-sftp-client` instance and the Node `fs` module. A method
returns:

* `Except String OperationResult` — `.error e` models a thrown exception
  with message `e` (the only throw reachable from a facade method is the
  `checkConnection` precondition); `.ok r` models a normally returned
  result object;
* a `List IOCall` trace recording, in order, every call made to the
  underlying client (`iface = "client"`), the filesystem
  (`iface = "fs"`), or the process (`iface = "process"`); an empty trace
  means no I/O was attempted.

Buffers are byte lists; JavaScript truthiness of optional strings and
numbers (`config.password`, `config.port || 22`, ...) is modelled
explicitly. The recursion of `copyDirRecursive` over the (external,
possibly cyclic) filesystem is bounded by the oracle's `fuel` field,
which models the finite call stack of the real runtime.
-/

namespace SftpJs

/-- `rights` sub-object of a `FileInfo` entry. -/
structure Rights where
  user : String
  group : String
  other : String
deriving DecidableEq, Repr

/-- The exported `FileInfo` interface: one entry of a directory listing. -/
structure FileInfo where
  type : Char
  name : String
  size : Nat
  modifyTime : Nat
  accessTime : Nat
  rights : Option Rights := none
  owner : Option Nat := none
  group : Option Nat := none
  longname : Option String := none
deriving DecidableEq, Repr

/-- An item of the array produced by the underlying `client.list` call;
`SFTPClient.list` reads exactly these fields off each item. -/
structure RemoteEntry where
  type : Char
  name : String
  size : Nat
  modifyTime : Nat
  accessTime : Nat
  rights : Option Rights := none
  owner : Option Nat := none
  group : Option Nat := none
  longname : Option String := none
deriving DecidableEq, Repr

/-- A `fs.Dirent` as consumed by the code: its name and `isDirectory()`. -/
structure DirEnt where
  name : String
  isDirectory : Bool
deriving DecidableEq, Repr

/-- A `fs.Stats` object, restricted to the fields the code reads. -/
structure FStats where
  size : Nat
  mtimeMs : Nat
  atimeMs : Nat
  isDirectory : Bool
deriving DecidableEq, Repr

/-- `privateKey` of the config: a path string or an in-memory buffer. -/
inductive PrivateKey where
  | path (p : String)
  | buffer (b : List Nat)
deriving DecidableEq, Repr

/-- The exported `SFTPConfig` interface (also the type of the stored
`this.config`, which the remote branch of `connect` rebuilds). -/
structure SFTPConfig where
  host : String
  port : Option Nat := none
  username : String
  password : Option String := none
  privateKey : Option PrivateKey := none
  passphrase : Option String := none
  retries : Option Nat := none
  retry_factor : Option Nat := none
  retry_minTimeout : Option Nat := none
deriving DecidableEq, Repr

/-- The `mode` argument of `chmod`: `string | number`. -/
inductive ChmodMode where
  | str (s : String)
  | num (n : Nat)
deriving DecidableEq, Repr

/-- The `content` argument of `writeFile`: `string | Buffer`. -/
inductive FileContent where
  | str (s : String)
  | buf (b : List Nat)
deriving DecidableEq, Repr

/-- The `data` payloads actually constructed by the facade: a `FileInfo`
array, a plain object of string fields (keys kept verbatim from the
source literals), the `\x7bexists, type\x7d` object, a stats snapshot, or
the `\x7bcontent\x7d` object (whose `content` string is carried directly). -/
inductive ResultData where
  | files (l : List FileInfo)
  | obj (fields : List (String × String))
  | existsInfo (ex : Bool) (ty : Option Char)
  | stats (s : FStats)
  | content (c : String)
deriving DecidableEq, Repr

/-- The exported `OperationResult` interface: `success` and `message` are
required, `data` and `error` optional. -/
structure OperationResult where
  success : Bool
  message : String
  data : Option ResultData := none
  error : Option String := none
deriving DecidableEq, Repr

/-- The names of the fields present on a result object: the two required
fields in interface declaration order, then `data` and `error` when the
corresponding object literal included them. -/
def OperationResult.fieldNames (r : OperationResult) : List String :=
  ["success", "message"]
    ++ (match r.data with | some _ => ["data"] | none => [])
    ++ (match r.error with | some _ => ["error"] | none => [])

/-- One call into an external interface: the underlying SFTP client
(`iface = "client"`), the `fs` module (`"fs"`), or `process`
(`"process"`), with the method name and a rendering of its arguments. -/
structure IOCall where
  iface : String
  method : String
  args : List String
deriving DecidableEq, Repr

/-- Oracle for every external call the facade can make, together with the
outcome the environment would give it. `.error e` models a rejected
promise / thrown exception carrying `error.message = e`. `fuel` bounds
the depth of `copyDirRecursive` (the real call stack is finite). -/
structure World where
  clientConnect : SFTPConfig → Except String Unit
  clientEnd : Except String Unit
  clientList : String → Except String (List RemoteEntry)
  clientPut : String → String → Except String Unit
  clientPutBuf : List Nat → String → Except String Unit
  clientGet : String → String → Except String Unit
  clientGetBuf : String → Except String (List Nat)
  clientDelete : String → Except String Unit
  clientMkdir : String → Bool → Except String Unit
  clientRmdir : String → Bool → Except String Unit
  clientRename : String → String → Except String Unit
  clientChmod : String → ChmodMode → Except String Unit
  clientExists : String → Except String (Option Char)
  clientStat : String → Except String FStats
  clientUploadDir : String → String → Except String Unit
  clientDownloadDir : String → String → Except String Unit
  clientCwd : Except String String
  fsReadFileSyncBin : String → Except String (List Nat)
  fsReaddir : String → Except String (List DirEnt)
  fsStat : String → Except String FStats
  fsCopyFile : String → String → Except String Unit
  fsUnlink : String → Except String Unit
  fsMkdir : String → Bool → Except String Unit
  fsRm : String → Bool → Except String Unit
  fsRename : String → String → Except String Unit
  fsChmod : String → Option Nat → Except String Unit
  fsExists : String → Bool
  fsReadFile : String → String → Except String String
  fsWriteFile : String → FileContent → String → Except String Unit
  processCwd : String
  bufferFrom : String → String → List Nat
  bufToString : List Nat → String → String
  fuel : Nat

/-- The mutable fields of a `SFTPClient` instance. -/
structure SFTPClientState where
  connected : Bool
  config : Option SFTPConfig
deriving DecidableEq, Repr

/-- The state produced by the constructor: `connected = false`,
`config = null`. -/
def initialState : SFTPClientState := { connected := false, config := none }

/-- Result type of a facade method that does not mutate the state. -/
abbrev OpOut := Except String OperationResult × List IOCall

namespace SFTPClient

/-- `isConnected()`. -/
def isConnected (st : SFTPClientState) : Bool := st.connected

/-- `getConfig()`. -/
def getConfig (st : SFTPClientState) : Option SFTPConfig := st.config

/-- `checkConnection()`: throws when not connected. -/
def checkConnection (st : SFTPClientState) : Except String Unit :=
  if st.connected then .ok () else .error "Not connected to server"

/-- `isLocalhost()`: whether the stored config's host is exactly
`localhost` or `127.0.0.1` (optional chaining gives `false` on a null
config). -/
def isLocalhost (st : SFTPClientState) : Bool :=
  match st.config with
  | some c => c.host = "localhost" || c.host = "127.0.0.1"
  | none => false

end SFTPClient

/-- JavaScript truthiness of an optional string (absent and `""` are
falsy). -/
def strTruthy : Option String → Bool
  | some s => s ≠ ""
  | none => false

/-- `v || d` on an optional number: absent, and the falsy `0`, give `d`. -/
def orElseNat (v : Option Nat) (d : Nat) : Nat :=
  match v with
  | some n => if n = 0 then d else n
  | none => d

/-- Leading-digits parse in a given base with a given digit predicate;
`none` models `parseInt` returning `NaN`. -/
def parseDigits (base : Nat) (isD : Char → Bool) (s : String) : Option Nat :=
  let ds := s.data.takeWhile isD
  if ds.isEmpty then none
  else some (ds.foldl (fun a c => a * base + (c.toNat - 48)) 0)

/-- `parseInt(s)` (base 10). -/
def parseIntDec (s : String) : Option Nat := parseDigits 10 Char.isDigit s

/-- `parseInt(s, 8)`. -/
def parseIntOct (s : String) : Option Nat :=
  parseDigits 8 (fun c => 48 ≤ c.toNat && c.toNat ≤ 55) s

/-- `path.join(a, b)` restricted to the separator-insertion behaviour the
embedding needs. -/
def pathJoin (a b : String) : String :=
  if a.endsWith "/" then a ++ b else a ++ "/" ++ b

/-- `host.includes(point)` over the character list. -/
def hostHasColon (s : String) : Bool := s.data.contains ':'

/-- `host.split(point)[0]`: the characters before the first `:`. -/
def hostBeforeColon (s : String) : String :=
  ⟨s.data.takeWhile (fun c => c ≠ ':')⟩

/-- `host.split(point)[1]`: the characters between the first and second
`:`. -/
def hostPortSegment (s : String) : String :=
  ⟨((s.data.dropWhile (fun c => c ≠ ':')).drop 1).takeWhile (fun c => c ≠ ':')⟩

/-- The hostname the remote branch of `connect` stores: the part before
the first `:` when the host string carries a port, the host unchanged
otherwise. -/
def parsedHost (host : String) : String :=
  if hostHasColon host then hostBeforeColon host else host

/-- Rendering of a chmod mode for the call trace. -/
def renderMode : ChmodMode → String
  | .str s => s
  | .num n => toString n

namespace SFTPClient

/-- The `FileInfo` built by `listLocal` for one directory entry from its
`Dirent` and `Stats`. -/
def localFileInfo (d : DirEnt) (s : FStats) : FileInfo :=
  { type := if d.isDirectory then 'd' else '-'
    name := d.name
    size := s.size
    modifyTime := s.mtimeMs
    accessTime := s.atimeMs
    rights := some { user := "rwx", group := "r-x", other := "r-x" } }

/-- The body of the `items.map` in `listLocal`: a `fs.statSync` per entry,
whose exception aborts the whole mapping (caught by the enclosing try). -/
def statEntries (w : World) (dirPath : String) :
    List DirEnt → Except String (List FileInfo) × List IOCall
  | [] => (.ok [], [])
  | d :: rest =>
    let fullPath := pathJoin dirPath d.name
    match w.fsStat fullPath with
    | .error e => (.error e, [⟨"fs", "statSync", [fullPath]⟩])
    | .ok s =>
      let (r, tr) := statEntries w dirPath rest
      (r.map (fun l => localFileInfo d s :: l), ⟨"fs", "statSync", [fullPath]⟩ :: tr)

/-- `listLocal`. -/
def listLocal (w : World) (dirPath : String) : OperationResult × List IOCall :=
  match w.fsReaddir dirPath with
  | .error e =>
    ({ success := false, message := "Failed to list files", error := some e },
     [⟨"fs", "readdirSync", [dirPath]⟩])
  | .ok items =>
    match statEntries w dirPath items with
    | (.ok files, tr) =>
      ({ success := true, message := "Files listed successfully", data := some (.files files) },
       ⟨"fs", "readdirSync", [dirPath]⟩ :: tr)
    | (.error e, tr) =>
      ({ success := false, message := "Failed to list files", error := some e },
       ⟨"fs", "readdirSync", [dirPath]⟩ :: tr)

/-- `putLocal`: `fs.copyFileSync(localPath, remotePath)`. -/
def putLocal (w : World) (localPath remotePath : String) : OperationResult × List IOCall :=
  match w.fsCopyFile localPath remotePath with
  | .ok _ =>
    ({ success := true, message := "File copied successfully"
       data := some (.obj [("localPath", localPath), ("remotePath", remotePath)]) },
     [⟨"fs", "copyFileSync", [localPath, remotePath]⟩])
  | .error e =>
    ({ success := false, message := "Copy failed", error := some e },
     [⟨"fs", "copyFileSync", [localPath, remotePath]⟩])

/-- `getLocal`: delegates to `putLocal` with the arguments in the same
order, so the copy runs from `remotePath` to `localPath`. -/
def getLocal (w : World) (remotePath localPath : String) : OperationResult × List IOCall :=
  putLocal w remotePath localPath

/-- `deleteLocal`. -/
def deleteLocal (w : World) (filePath : String) : OperationResult × List IOCall :=
  match w.fsUnlink filePath with
  | .ok _ =>
    ({ success := true, message := "File deleted successfully"
       data := some (.obj [("filePath", filePath)]) },
     [⟨"fs", "unlinkSync", [filePath]⟩])
  | .error e =>
    ({ success := false, message := "Delete failed", error := some e },
     [⟨"fs", "unlinkSync", [filePath]⟩])

/-- `mkdirLocal`. -/
def mkdirLocal (w : World) (dirPath : String) (recursive : Bool) :
    OperationResult × List IOCall :=
  match w.fsMkdir dirPath recursive with
  | .ok _ =>
    ({ success := true, message := "Directory created successfully"
       data := some (.obj [("dirPath", dirPath)]) },
     [⟨"fs", "mkdirSync", [dirPath]⟩])
  | .error e =>
    ({ success := false, message := "Failed to create directory", error := some e },
     [⟨"fs", "mkdirSync", [dirPath]⟩])

/-- `rmdirLocal`: `fs.rmSync` with `force: true`. -/
def rmdirLocal (w : World) (dirPath : String) (recursive : Bool) :
    OperationResult × List IOCall :=
  match w.fsRm dirPath recursive with
  | .ok _ =>
    ({ success := true, message := "Directory removed successfully"
       data := some (.obj [("dirPath", dirPath)]) },
     [⟨"fs", "rmSync", [dirPath]⟩])
  | .error e =>
    ({ success := false, message := "Failed to remove directory", error := some e },
     [⟨"fs", "rmSync", [dirPath]⟩])

/-- `renameLocal`. -/
def renameLocal (w : World) (oldPath newPath : String) : OperationResult × List IOCall :=
  match w.fsRename oldPath newPath with
  | .ok _ =>
    ({ success := true, message := "Renamed successfully"
       data := some (.obj [("oldPath", oldPath), ("newPath", newPath)]) },
     [⟨"fs", "renameSync", [oldPath, newPath]⟩])
  | .error e =>
    ({ success := false, message := "Rename failed", error := some e },
     [⟨"fs", "renameSync", [oldPath, newPath]⟩])

/-- `chmodLocal`: a string mode goes through `parseInt(mode, 8)` (whose
`NaN` is modelled as `none`) before `fs.chmodSync`. -/
def chmodLocal (w : World) (filePath : String) (mode : ChmodMode) :
    OperationResult × List IOCall :=
  let modeNum := match mode with
    | .str s => parseIntOct s
    | .num n => some n
  match w.fsChmod filePath modeNum with
  | .ok _ =>
    ({ success := true, message := "Permissions changed successfully"
       data := some (.obj [("filePath", filePath), ("mode", renderMode mode)]) },
     [⟨"fs", "chmodSync", [filePath, renderMode mode]⟩])
  | .error e =>
    ({ success := false, message := "Failed to change permissions", error := some e },
     [⟨"fs", "chmodSync", [filePath, renderMode mode]⟩])

/-- `existsLocal`: `fs.existsSync`, then a `fs.statSync` (whose exception
is caught) to classify the entry when it exists. -/
def existsLocal (w : World) (filePath : String) : OperationResult × List IOCall :=
  if w.fsExists filePath then
    match w.fsStat filePath with
    | .ok s =>
      ({ success := true, message := "Checked existence"
         data := some (.existsInfo true (some (if s.isDirectory then 'd' else '-'))) },
       [⟨"fs", "existsSync", [filePath]⟩, ⟨"fs", "statSync", [filePath]⟩])
    | .error e =>
      ({ success := false, message := "Failed to check existence", error := some e },
       [⟨"fs", "existsSync", [filePath]⟩, ⟨"fs", "statSync", [filePath]⟩])
  else
    ({ success := true, message := "Checked existence"
       data := some (.existsInfo false none) },
     [⟨"fs", "existsSync", [filePath]⟩])

/-- `statLocal`. -/
def statLocal (w : World) (filePath : String) : OperationResult × List IOCall :=
  match w.fsStat filePath with
  | .ok s =>
    ({ success := true, message := "Stats retrieved successfully", data := some (.stats s) },
     [⟨"fs", "statSync", [filePath]⟩])
  | .error e =>
    ({ success := false, message := "Failed to get stats", error := some e },
     [⟨"fs", "statSync", [filePath]⟩])

/-- `readFileLocal`. -/
def readFileLocal (w : World) (filePath encoding : String) : OperationResult × List IOCall :=
  match w.fsReadFile filePath encoding with
  | .ok c =>
    ({ success := true, message := "File read successfully", data := some (.content c) },
     [⟨"fs", "readFileSync", [filePath, encoding]⟩])
  | .error e =>
    ({ success := false, message := "Failed to read file", error := some e },
     [⟨"fs", "readFileSync", [filePath, encoding]⟩])

/-- `writeFileLocal`. -/
def writeFileLocal (w : World) (filePath : String) (content : FileContent)
    (encoding : String) : OperationResult × List IOCall :=
  match w.fsWriteFile filePath content encoding with
  | .ok _ =>
    ({ success := true, message := "File written successfully"
       data := some (.obj [("filePath", filePath)]) },
     [⟨"fs", "writeFileSync", [filePath, encoding]⟩])
  | .error e =>
    ({ success := false, message := "Failed to write file", error := some e },
     [⟨"fs", "writeFileSync", [filePath, encoding]⟩])

/-- The opening of `copyDirRecursive`: `fs.existsSync(dest)` and, when it
is absent, `fs.mkdirSync(dest, \x7brecursive: true\x7d)` (whose exception
aborts the walk). -/
def ensureDest (w : World) (dest : String) : Except String Unit × List IOCall :=
  if w.fsExists dest then (.ok (), [⟨"fs", "existsSync", [dest]⟩])
  else
    match w.fsMkdir dest true with
    | .ok _ => (.ok (), [⟨"fs", "existsSync", [dest]⟩, ⟨"fs", "mkdirSync", [dest]⟩])
    | .error e => (.error e, [⟨"fs", "existsSync", [dest]⟩, ⟨"fs", "mkdirSync", [dest]⟩])

/-- One iteration of the `for` loop of `copyDirRecursive`: skipped once an
exception aborted the walk; recurses (through `go`) into a subdirectory,
else `fs.copyFileSync`. -/
def copyStep (w : World) (go : String → String → Except String Unit × List IOCall)
    (src dest : String) (acc : Except String Unit × List IOCall) (d : DirEnt) :
    Except String Unit × List IOCall :=
  match acc with
  | (.error e, t) => (.error e, t)
  | (.ok _, t) =>
    let srcPath := pathJoin src d.name
    let destPath := pathJoin dest d.name
    if d.isDirectory then
      let (r, t2) := go srcPath destPath
      (r, t ++ t2)
    else
      match w.fsCopyFile srcPath destPath with
      | .ok _ => (.ok (), t ++ [⟨"fs", "copyFileSync", [srcPath, destPath]⟩])
      | .error e => (.error e, t ++ [⟨"fs", "copyFileSync", [srcPath, destPath]⟩])

/-- `copyDirRecursive`: ensure the destination exists, read the source
directory, then copy each item in order (recursing into subdirectories).
The first exception aborts the walk; `fuel` bounds the recursion depth,
modelling the finite call stack. -/
def copyDirRecursive (w : World) : Nat → String → String → Except String Unit × List IOCall
  | 0, _, _ => (.error "Maximum call stack size exceeded", [])
  | fuel + 1, src, dest =>
    match ensureDest w dest with
    | (.error e, tr) => (.error e, tr)
    | (.ok _, tr) =>
      match w.fsReaddir src with
      | .error e => (.error e, tr ++ [⟨"fs", "readdirSync", [src]⟩])
      | .ok items =>
        items.foldl (copyStep w (copyDirRecursive w fuel) src dest)
          (.ok (), tr ++ [⟨"fs", "readdirSync", [src]⟩])

/-- `putDirLocal`. -/
def putDirLocal (w : World) (srcDir destDir : String) : OperationResult × List IOCall :=
  match copyDirRecursive w w.fuel srcDir destDir with
  | (.ok _, tr) =>
    ({ success := true, message := "Directory copied successfully"
       data := some (.obj [("srcDir", srcDir), ("destDir", destDir)]) }, tr)
  | (.error e, tr) =>
    ({ success := false, message := "Failed to copy directory", error := some e }, tr)

/-- `getDirLocal`: delegates to `putDirLocal` with the arguments in the
same order. -/
def getDirLocal (w : World) (srcDir destDir : String) : OperationResult × List IOCall :=
  putDirLocal w srcDir destDir

/-- The tail of the remote branch of `connect`: `client.connect(config)`
followed by `this.connected = true` on success, or the catch clause
(`this.connected = false` and a failure result) on rejection. `tr` is the
trace accumulated before the call (a `readFileSync` for a key path). -/
def finishConnect (w : World) (cfg : SFTPConfig) (host : String) (port : Nat)
    (tr : List IOCall) : OperationResult × SFTPClientState × List IOCall :=
  match w.clientConnect cfg with
  | .ok _ =>
    ({ success := true, message := "Connected to " ++ host ++ ":" ++ toString port },
     { connected := true, config := some cfg },
     tr ++ [⟨"client", "connect", [host, toString port]⟩])
  | .error e =>
    ({ success := false, message := "Connection failed", error := some e },
     { connected := false, config := some cfg },
     tr ++ [⟨"client", "connect", [host, toString port]⟩])

/-- The failure produced when the catch clause receives the
`Password or private key is required` throw: `this.config` was already
assigned the rebuilt config. -/
def authRequiredFailure (cfg : SFTPConfig) :
    OperationResult × SFTPClientState × List IOCall :=
  ({ success := false, message := "Connection failed"
     error := some "Password or private key is required" },
   { connected := false, config := some cfg }, [])

/-- `connect(config)`. The `localhost`/`127.0.0.1` branch stores the raw
config and reports success with no I/O; the remote branch parses a
`host:port` host, rebuilds `this.config` (with `|| 22`, `|| 3`, `|| 2`,
`|| 2000` defaults), resolves the credential (password, in-memory key, or
key file read via `fs.readFileSync`), and calls `client.connect`; any
exception is caught into a `Connection failed` result with
`this.connected = false`. -/
def connect (w : World) (config : SFTPConfig) :
    OperationResult × SFTPClientState × List IOCall :=
  if config.host = "localhost" || config.host = "127.0.0.1" then
    ({ success := true, message := "Connected to localhost" },
     { connected := true, config := some config }, [])
  else
    let hasPort := hostHasColon config.host
    let host := parsedHost config.host
    let port0 := orElseNat config.port 22
    let port :=
      if hasPort then
        match parseIntDec (hostPortSegment config.host) with
        | some n => if n = 0 then port0 else n
        | none => port0
      else port0
    let base : SFTPConfig :=
      { host := host, port := some port, username := config.username
        retries := some (orElseNat config.retries 3)
        retry_factor := some (orElseNat config.retry_factor 2)
        retry_minTimeout := some (orElseNat config.retry_minTimeout 2000) }
    if strTruthy config.password then
      finishConnect w { base with password := config.password } host port []
    else
      match config.privateKey with
      | some (.path p) =>
        if p = "" then authRequiredFailure base
        else
          match w.fsReadFileSyncBin p with
          | .error e =>
            ({ success := false, message := "Connection failed", error := some e },
             { connected := false, config := some base },
             [⟨"fs", "readFileSync", [p]⟩])
          | .ok bytes =>
            finishConnect w
              { base with
                  privateKey := some (.buffer bytes),
                  passphrase :=
                    if strTruthy config.passphrase then config.passphrase else none }
              host port [⟨"fs", "readFileSync", [p]⟩]
      | some (.buffer b) =>
        finishConnect w
          { base with
              privateKey := some (.buffer b),
              passphrase :=
                if strTruthy config.passphrase then config.passphrase else none }
          host port []
      | none => authRequiredFailure base

/-- `disconnect()`. On a localhost session, or on a successful
`client.end()`, clears the connected flag; a rejected `client.end()`
leaves the state unchanged and returns a failure result. -/
def disconnect (st : SFTPClientState) (w : World) :
    OperationResult × SFTPClientState × List IOCall :=
  if isLocalhost st then
    ({ success := true, message := "Disconnected from localhost" },
     { st with connected := false }, [])
  else
    match w.clientEnd with
    | .ok _ =>
      ({ success := true, message := "Disconnected successfully" },
       { st with connected := false }, [⟨"client", "end", []⟩])
    | .error e =>
      ({ success := false, message := "Disconnect failed", error := some e },
       st, [⟨"client", "end", []⟩])

/-- The field copy performed by the `list.map` in `SFTPClient.list`. -/
def mapRemoteEntry (item : RemoteEntry) : FileInfo :=
  { type := item.type, name := item.name, size := item.size
    modifyTime := item.modifyTime, accessTime := item.accessTime
    rights := item.rights, owner := item.owner, group := item.group
    longname := item.longname }

/-- `list(remotePath)`. -/
def list (st : SFTPClientState) (w : World) (remotePath : String) : OpOut :=
  match checkConnection st with
  | .error e => (.error e, [])
  | .ok _ =>
    if isLocalhost st then
      let (r, tr) := listLocal w remotePath
      (.ok r, tr)
    else
      match w.clientList remotePath with
      | .ok items =>
        (.ok { success := true, message := "Files listed successfully"
               data := some (.files (items.map mapRemoteEntry)) },
         [⟨"client", "list", [remotePath]⟩])
      | .error e =>
        (.ok { success := false, message := "Failed to list files", error := some e },
         [⟨"client", "list", [remotePath]⟩])

/-- `put(localPath, remotePath)`. -/
def put (st : SFTPClientState) (w : World) (localPath remotePath : String) : OpOut :=
  match checkConnection st with
  | .error e => (.error e, [])
  | .ok _ =>
    if isLocalhost st then
      let (r, tr) := putLocal w localPath remotePath
      (.ok r, tr)
    else
      match w.clientPut localPath remotePath with
      | .ok _ =>
        (.ok { success := true, message := "File uploaded successfully"
               data := some (.obj [("localPath", localPath), ("remotePath", remotePath)]) },
         [⟨"client", "put", [localPath, remotePath]⟩])
      | .error e =>
        (.ok { success := false, message := "Upload failed", error := some e },
         [⟨"client", "put", [localPath, remotePath]⟩])

/-- `get(remotePath, localPath)`. -/
def get (st : SFTPClientState) (w : World) (remotePath localPath : String) : OpOut :=
  match checkConnection st with
  | .error e => (.error e, [])
  | .ok _ =>
    if isLocalhost st then
      let (r, tr) := getLocal w remotePath localPath
      (.ok r, tr)
    else
      match w.clientGet remotePath localPath with
      | .ok _ =>
        (.ok { success := true, message := "File downloaded successfully"
               data := some (.obj [("remotePath", remotePath), ("localPath", localPath)]) },
         [⟨"client", "get", [remotePath, localPath]⟩])
      | .error e =>
        (.ok { success := false, message := "Download failed", error := some e },
         [⟨"client", "get", [remotePath, localPath]⟩])

/-- `delete(remotePath)`. -/
def delete (st : SFTPClientState) (w : World) (remotePath : String) : OpOut :=
  match checkConnection st with
  | .error e => (.error e, [])
  | .ok _ =>
    if isLocalhost st then
      let (r, tr) := deleteLocal w remotePath
      (.ok r, tr)
    else
      match w.clientDelete remotePath with
      | .ok _ =>
        (.ok { success := true, message := "File deleted successfully"
               data := some (.obj [("remotePath", remotePath)]) },
         [⟨"client", "delete", [remotePath]⟩])
      | .error e =>
        (.ok { success := false, message := "Delete failed", error := some e },
         [⟨"client", "delete", [remotePath]⟩])

/-- `mkdir(remotePath, recursive)`. -/
def mkdir (st : SFTPClientState) (w : World) (remotePath : String) (recursive : Bool) : OpOut :=
  match checkConnection st with
  | .error e => (.error e, [])
  | .ok _ =>
    if isLocalhost st then
      let (r, tr) := mkdirLocal w remotePath recursive
      (.ok r, tr)
    else
      match w.clientMkdir remotePath recursive with
      | .ok _ =>
        (.ok { success := true, message := "Directory created successfully"
               data := some (.obj [("remotePath", remotePath)]) },
         [⟨"client", "mkdir", [remotePath]⟩])
      | .error e =>
        (.ok { success := false, message := "Failed to create directory", error := some e },
         [⟨"client", "mkdir", [remotePath]⟩])

/-- `rmdir(remotePath, recursive)`. -/
def rmdir (st : SFTPClientState) (w : World) (remotePath : String) (recursive : Bool) : OpOut :=
  match checkConnection st with
  | .error e => (.error e, [])
  | .ok _ =>
    if isLocalhost st then
      let (r, tr) := rmdirLocal w remotePath recursive
      (.ok r, tr)
    else
      match w.clientRmdir remotePath recursive with
      | .ok _ =>
        (.ok { success := true, message := "Directory removed successfully"
               data := some (.obj [("remotePath", remotePath)]) },
         [⟨"client", "rmdir", [remotePath]⟩])
      | .error e =>
        (.ok { success := false, message := "Failed to remove directory", error := some e },
         [⟨"client", "rmdir", [remotePath]⟩])

/-- `rename(oldPath, newPath)`. -/
def rename (st : SFTPClientState) (w : World) (oldPath newPath : String) : OpOut :=
  match checkConnection st with
  | .error e => (.error e, [])
  | .ok _ =>
    if isLocalhost st then
      let (r, tr) := renameLocal w oldPath newPath
      (.ok r, tr)
    else
      match w.clientRename oldPath newPath with
      | .ok _ =>
        (.ok { success := true, message := "Renamed successfully"
               data := some (.obj [("oldPath", oldPath), ("newPath", newPath)]) },
         [⟨"client", "rename", [oldPath, newPath]⟩])
      | .error e =>
        (.ok { success := false, message := "Rename failed", error := some e },
         [⟨"client", "rename", [oldPath, newPath]⟩])

/-- `chmod(remotePath, mode)`. -/
def chmod (st : SFTPClientState) (w : World) (remotePath : String) (mode : ChmodMode) : OpOut :=
  match checkConnection st with
  | .error e => (.error e, [])
  | .ok _ =>
    if isLocalhost st then
      let (r, tr) := chmodLocal w remotePath mode
      (.ok r, tr)
    else
      match w.clientChmod remotePath mode with
      | .ok _ =>
        (.ok { success := true, message := "Permissions changed successfully"
               data := some (.obj [("remotePath", remotePath), ("mode", renderMode mode)]) },
         [⟨"client", "chmod", [remotePath, renderMode mode]⟩])
      | .error e =>
        (.ok { success := false, message := "Failed to change permissions", error := some e },
         [⟨"client", "chmod", [remotePath, renderMode mode]⟩])

/-- `exists(remotePath)` (the source method name is a Lean keyword): the
underlying call yields `false` (modelled `none`) or a type character;
`data.exists` is its truthiness and `data.type` is `result || null`. -/
def existsOp (st : SFTPClientState) (w : World) (remotePath : String) : OpOut :=
  match checkConnection st with
  | .error e => (.error e, [])
  | .ok _ =>
    if isLocalhost st then
      let (r, tr) := existsLocal w remotePath
      (.ok r, tr)
    else
      match w.clientExists remotePath with
      | .ok res =>
        (.ok { success := true, message := "Checked existence"
               data := some (.existsInfo res.isSome res) },
         [⟨"client", "exists", [remotePath]⟩])
      | .error e =>
        (.ok { success := false, message := "Failed to check existence", error := some e },
         [⟨"client", "exists", [remotePath]⟩])

/-- `stat(remotePath)`. -/
def stat (st : SFTPClientState) (w : World) (remotePath : String) : OpOut :=
  match checkConnection st with
  | .error e => (.error e, [])
  | .ok _ =>
    if isLocalhost st then
      let (r, tr) := statLocal w remotePath
      (.ok r, tr)
    else
      match w.clientStat remotePath with
      | .ok s =>
        (.ok { success := true, message := "Stats retrieved successfully"
               data := some (.stats s) },
         [⟨"client", "stat", [remotePath]⟩])
      | .error e =>
        (.ok { success := false, message := "Failed to get stats", error := some e },
         [⟨"client", "stat", [remotePath]⟩])

/-- `readFile(remotePath, encoding)`: remote branch downloads a buffer via
`client.get` and decodes it with `buffer.toString(encoding)`. -/
def readFile (st : SFTPClientState) (w : World) (remotePath encoding : String) : OpOut :=
  match checkConnection st with
  | .error e => (.error e, [])
  | .ok _ =>
    if isLocalhost st then
      let (r, tr) := readFileLocal w remotePath encoding
      (.ok r, tr)
    else
      match w.clientGetBuf remotePath with
      | .ok buffer =>
        (.ok { success := true, message := "File read successfully"
               data := some (.content (w.bufToString buffer encoding)) },
         [⟨"client", "get", [remotePath]⟩])
      | .error e =>
        (.ok { success := false, message := "Failed to read file", error := some e },
         [⟨"client", "get", [remotePath]⟩])

/-- `writeFile(remotePath, content, encoding)`: remote branch encodes a
string content with `Buffer.from(content, encoding)` and uploads via
`client.put`. -/
def writeFile (st : SFTPClientState) (w : World) (remotePath : String)
    (content : FileContent) (encoding : String) : OpOut :=
  match checkConnection st with
  | .error e => (.error e, [])
  | .ok _ =>
    if isLocalhost st then
      let (r, tr) := writeFileLocal w remotePath content encoding
      (.ok r, tr)
    else
      let buffer := match content with
        | .str s => w.bufferFrom s encoding
        | .buf b => b
      match w.clientPutBuf buffer remotePath with
      | .ok _ =>
        (.ok { success := true, message := "File written successfully"
               data := some (.obj [("remotePath", remotePath)]) },
         [⟨"client", "put", [remotePath]⟩])
      | .error e =>
        (.ok { success := false, message := "Failed to write file", error := some e },
         [⟨"client", "put", [remotePath]⟩])

/-- `putDir(localDir, remoteDir)`. -/
def putDir (st : SFTPClientState) (w : World) (localDir remoteDir : String) : OpOut :=
  match checkConnection st with
  | .error e => (.error e, [])
  | .ok _ =>
    if isLocalhost st then
      let (r, tr) := putDirLocal w localDir remoteDir
      (.ok r, tr)
    else
      match w.clientUploadDir localDir remoteDir with
      | .ok _ =>
        (.ok { success := true, message := "Directory uploaded successfully"
               data := some (.obj [("localDir", localDir), ("remoteDir", remoteDir)]) },
         [⟨"client", "uploadDir", [localDir, remoteDir]⟩])
      | .error e =>
        (.ok { success := false, message := "Failed to upload directory", error := some e },
         [⟨"client", "uploadDir", [localDir, remoteDir]⟩])

/-- `getDir(remoteDir, localDir)`. -/
def getDir (st : SFTPClientState) (w : World) (remoteDir localDir : String) : OpOut :=
  match checkConnection st with
  | .error e => (.error e, [])
  | .ok _ =>
    if isLocalhost st then
      let (r, tr) := getDirLocal w remoteDir localDir
      (.ok r, tr)
    else
      match w.clientDownloadDir remoteDir localDir with
      | .ok _ =>
        (.ok { success := true, message := "Directory downloaded successfully"
               data := some (.obj [("remoteDir", remoteDir), ("localDir", localDir)]) },
         [⟨"client", "downloadDir", [remoteDir, localDir]⟩])
      | .error e =>
        (.ok { success := false, message := "Failed to download directory", error := some e },
         [⟨"client", "downloadDir", [remoteDir, localDir]⟩])

/-- `pwd()`. -/
def pwd (st : SFTPClientState) (w : World) : OpOut :=
  match checkConnection st with
  | .error e => (.error e, [])
  | .ok _ =>
    if isLocalhost st then
      (.ok { success := true, message := "Current directory"
             data := some (.obj [("path", w.processCwd)]) },
       [⟨"process", "cwd", []⟩])
    else
      match w.clientCwd with
      | .ok p =>
        (.ok { success := true, message := "Current directory"
               data := some (.obj [("path", p)]) },
         [⟨"client", "cwd", []⟩])
      | .error e =>
        (.ok { success := false, message := "Failed to get current directory", error := some e },
         [⟨"client", "cwd", []⟩])

end SFTPClient

/-- One invocation of a facade method other than `connect` and
`disconnect`, with its arguments. -/
inductive FacadeOp where
  | list (remotePath : String)
  | put (localPath remotePath : String)
  | get (remotePath localPath : String)
  | delete (remotePath : String)
  | mkdir (remotePath : String) (recursive : Bool)
  | rmdir (remotePath : String) (recursive : Bool)
  | rename (oldPath newPath : String)
  | chmod (remotePath : String) (mode : ChmodMode)
  | existsOp (remotePath : String)
  | stat (remotePath : String)
  | readFile (remotePath encoding : String)
  | writeFile (remotePath : String) (content : FileContent) (encoding : String)
  | putDir (localDir remoteDir : String)
  | getDir (remoteDir localDir : String)
  | pwd
deriving DecidableEq, Repr

/-- Dispatch of a `FacadeOp` to the corresponding method. These are the
operations that neither read nor change the connection state fields. -/
def runOp (o : FacadeOp) (st : SFTPClientState) (w : World) : OpOut :=
  match o with
  | .list p => SFTPClient.list st w p
  | .put lp rp => SFTPClient.put st w lp rp
  | .get rp lp => SFTPClient.get st w rp lp
  | .delete p => SFTPClient.delete st w p
  | .mkdir p r => SFTPClient.mkdir st w p r
  | .rmdir p r => SFTPClient.rmdir st w p r
  | .rename o n => SFTPClient.rename st w o n
  | .chmod p m => SFTPClient.chmod st w p m
  | .existsOp p => SFTPClient.existsOp st w p
  | .stat p => SFTPClient.stat st w p
  | .readFile p e => SFTPClient.readFile st w p e
  | .writeFile p c e => SFTPClient.writeFile st w p c e
  | .putDir l r => SFTPClient.putDir st w l r
  | .getDir r l => SFTPClient.getDir st w r l
  | .pwd => SFTPClient.pwd st w

/-- Any public facade call, `connect` and `disconnect` included. -/
inductive Call where
  | connect (config : SFTPConfig)
  | disconnect
  | op (o : FacadeOp)

/-- Run any public facade call, returning the thrown-or-returned result,
the successor state, and the I/O trace. `connect` and `disconnect` never
throw (their bodies are entirely inside try/catch). -/
def runCall (c : Call) (st : SFTPClientState) (w : World) :
    Except String OperationResult × SFTPClientState × List IOCall :=
  match c with
  | .connect cfg =>
    let (r, st', tr) := SFTPClient.connect w cfg
    (.ok r, st', tr)
  | .disconnect =>
    let (r, st', tr) := SFTPClient.disconnect st w
    (.ok r, st', tr)
  | .op o =>
    let (r, tr) := runOp o st w
    (r, st, tr)

/-- A concrete oracle where every external call succeeds with a plain
default value; used to instantiate theorems at closed inputs. -/
def defaultWorld : World :=
  { clientConnect := fun _ => .ok ()
    clientEnd := .ok ()
    clientList := fun _ => .ok []
    clientPut := fun _ _ => .ok ()
    clientPutBuf := fun _ _ => .ok ()
    clientGet := fun _ _ => .ok ()
    clientGetBuf := fun _ => .ok []
    clientDelete := fun _ => .ok ()
    clientMkdir := fun _ _ => .ok ()
    clientRmdir := fun _ _ => .ok ()
    clientRename := fun _ _ => .ok ()
    clientChmod := fun _ _ => .ok ()
    clientExists := fun _ => .ok none
    clientStat := fun _ => .ok ⟨0, 0, 0, false⟩
    clientUploadDir := fun _ _ => .ok ()
    clientDownloadDir := fun _ _ => .ok ()
    clientCwd := .ok "/"
    fsReadFileSyncBin := fun _ => .ok []
    fsReaddir := fun _ => .ok []
    fsStat := fun _ => .ok ⟨0, 0, 0, false⟩
    fsCopyFile := fun _ _ => .ok ()
    fsUnlink := fun _ => .ok ()
    fsMkdir := fun _ _ => .ok ()
    fsRm := fun _ _ => .ok ()
    fsRename := fun _ _ => .ok ()
    fsChmod := fun _ _ => .ok ()
    fsExists := fun _ => false
    fsReadFile := fun _ _ => .ok ""
    fsWriteFile := fun _ _ _ => .ok ()
    processCwd := "/"
    bufferFrom := fun _ _ => []
    bufToString := fun _ _ => ""
    fuel := 16 }

/-- A localhost config (no credential). -/
def cfgLocal : SFTPConfig := { host := "localhost", username := "u" }

/-- A host of the form `localhost:port`, with a password. -/
def cfgMixed : SFTPConfig := { host := "localhost:2222", username := "u", password := some "p" }

/-- A plain remote config with a password. -/
def cfgRemote : SFTPConfig := { host := "example.com", username := "u", password := some "p" }

/-- A remote config with neither password nor private key. -/
def cfgNoAuth : SFTPConfig := { host := "example.com", username := "u" }

/-- A connected localhost session state. -/
def stLocal : SFTPClientState := { connected := true, config := some cfgLocal }

/-- A connected remote session state. -/
def stRemote : SFTPClientState := { connected := true, config := some cfgRemote }

/-- An oracle whose `client.rename` rejects with `NoSuchFile`. -/
def worldRenameNoSuch : World :=
  { defaultWorld with clientRename := fun _ _ => .error "NoSuchFile" }

/-- The directory entry `\x7btype: 'd', name: 'docs', size: 0\x7d` of the
spec's listing scenario. -/
def entryDocs : RemoteEntry :=
  { type := 'd', name := "docs", size := 0, modifyTime := 11, accessTime := 12 }

/-- The file entry `\x7btype: '-', name: 'a.txt', size: 120\x7d` of the
spec's listing scenario. -/
def entryATxt : RemoteEntry :=
  { type := '-', name := "a.txt", size := 120, modifyTime := 13, accessTime := 14 }

/-- An oracle whose `client.list` yields the spec's two-entry listing. -/
def worldListTwo : World :=
  { defaultWorld with clientList := fun _ => .ok [entryDocs, entryATxt] }

end SftpJs

namespace WireCodec

/-!
Modelled from the spec: the repository contains no wire codec — it
delegates the whole SFTP protocol to the imported `ssh2-sftp-client`
library. Spec §4.1 and §6 define the codec this development embeds:
request/response messages `\x7brequestId: uint32, opcode, payload\x7d`
framed with a length prefix, fixed-width big-endian numeric fields,
length-prefixed byte-sequence strings (no implicit text encoding), and
attribute blocks written as a presence bitmask followed by exactly the
optional fields whose bits are set, decoded in the order the bits are
tested. `decode` fails with `MalformedPacket` on truncated input, an
unknown opcode, or a length field inconsistent with the buffer.
-/

/-- Modelled from the spec: codec failure — truncated input, unknown
message type, or inconsistent length field. -/
inductive CodecError where
  | malformedPacket
deriving DecidableEq, Repr

/-- Big-endian 4-byte encoding of `n % 2 ^ 32`. -/
def putU32 (n : Nat) : List Nat :=
  [n / 2 ^ 24 % 256, n / 2 ^ 16 % 256, n / 2 ^ 8 % 256, n % 256]

/-- Read a big-endian 4-byte number; `none` on truncated input. -/
def getU32 : List Nat → Option (Nat × List Nat)
  | a :: b :: c :: d :: rest => some (((a * 256 + b) * 256 + c) * 256 + d, rest)
  | _ => none

/-- Big-endian 8-byte encoding. -/
def putU64 (n : Nat) : List Nat := putU32 (n / 2 ^ 32) ++ putU32 (n % 2 ^ 32)

/-- Read a big-endian 8-byte number. -/
def getU64 (bs : List Nat) : Option (Nat × List Nat) :=
  match getU32 bs with
  | some (hi, r1) =>
    match getU32 r1 with
    | some (lo, r2) => some (hi * 2 ^ 32 + lo, r2)
    | none => none
  | none => none

/-- Two consecutive 4-byte numbers (uid/gid, atime/mtime pairs). -/
def putPair32 (p : Nat × Nat) : List Nat := putU32 p.1 ++ putU32 p.2

/-- Read two consecutive 4-byte numbers. -/
def getPair32 (bs : List Nat) : Option ((Nat × Nat) × List Nat) :=
  match getU32 bs with
  | some (a, r1) =>
    match getU32 r1 with
    | some (b, r2) => some ((a, b), r2)
    | none => none
  | none => none

/-- Length-prefixed byte string. -/
def putBytes (s : List Nat) : List Nat := putU32 s.length ++ s

/-- Read a length-prefixed byte string; `none` when the prefix promises
more bytes than remain. -/
def getBytes (bs : List Nat) : Option (List Nat × List Nat) :=
  match getU32 bs with
  | some (n, rest) => if n ≤ rest.length then some (rest.take n, rest.drop n) else none
  | none => none

/-- The field for one presence bit: written only when present. -/
def putOpt (v : Option α) (put1 : α → List Nat) : List Nat :=
  match v with
  | some x => put1 x
  | none => []

/-- Read the field for one presence bit: consumed only when the bit was
set. -/
def getOpt (present : Bool) (get1 : List Nat → Option (α × List Nat))
    (bs : List Nat) : Option (Option α × List Nat) :=
  if present then (get1 bs).map (fun x => (some x.1, x.2)) else some (none, bs)

/-- Modelled from the spec: the attribute block (spec `FileAttributes`
fixed field layout) — every field optional, guarded by a presence bit. -/
structure Attrs where
  size : Option Nat := none
  uidgid : Option (Nat × Nat) := none
  permissions : Option Nat := none
  acmodtime : Option (Nat × Nat) := none
deriving DecidableEq, Repr

/-- The presence bitmask written before the attribute fields. -/
def attrFlags (a : Attrs) : Nat :=
  (if a.size.isSome then 1 else 0) + (if a.uidgid.isSome then 2 else 0) +
    (if a.permissions.isSome then 4 else 0) + (if a.acmodtime.isSome then 8 else 0)

/-- Encode an attribute block: bitmask, then exactly the present fields
in bit order. -/
def putAttrs (a : Attrs) : List Nat :=
  putU32 (attrFlags a)
    ++ putOpt a.size putU64
    ++ putOpt a.uidgid putPair32
    ++ putOpt a.permissions putU32
    ++ putOpt a.acmodtime putPair32

/-- Decode an attribute block, testing the presence bits in exactly the
order their fields were written. -/
def getAttrs (bs : List Nat) : Option (Attrs × List Nat) := do
  let (flags, r0) ← getU32 bs
  let (size, r1) ← getOpt (flags % 2 == 1) getU64 r0
  let (uidgid, r2) ← getOpt (flags / 2 % 2 == 1) getPair32 r1
  let (permissions, r3) ← getOpt (flags / 4 % 2 == 1) getU32 r2
  let (acmodtime, r4) ← getOpt (flags / 8 % 2 == 1) getPair32 r3
  some ({ size := size, uidgid := uidgid, permissions := permissions,
          acmodtime := acmodtime }, r4)

/-- Numeric bounds making an attribute block encodable without loss. -/
def AttrsWf (a : Attrs) : Prop :=
  (match a.size with | some n => n < 2 ^ 64 | none => True) ∧
  (match a.uidgid with | some p => p.1 < 2 ^ 32 ∧ p.2 < 2 ^ 32 | none => True) ∧
  (match a.permissions with | some n => n < 2 ^ 32 | none => True) ∧
  (match a.acmodtime with | some p => p.1 < 2 ^ 32 ∧ p.2 < 2 ^ 32 | none => True)

/-- Modelled from the spec: the valid request/response messages of the
engine's SFTP dialect (spec §6 wire format), each carrying its `uint32`
request id. Strings are raw byte sequences. -/
inductive SftpMessage where
  | openF (id : Nat) (path : List Nat) (pflags : Nat) (attrs : Attrs)
  | close (id : Nat) (handle : List Nat)
  | readF (id : Nat) (handle : List Nat) (offset : Nat) (len : Nat)
  | writeF (id : Nat) (handle : List Nat) (offset : Nat) (data : List Nat)
  | opendir (id : Nat) (path : List Nat)
  | readdir (id : Nat) (handle : List Nat)
  | remove (id : Nat) (path : List Nat)
  | mkdir (id : Nat) (path : List Nat) (attrs : Attrs)
  | rmdir (id : Nat) (path : List Nat)
  | stat (id : Nat) (path : List Nat)
  | rename (id : Nat) (oldPath newPath : List Nat)
  | status (id : Nat) (code : Nat) (message : List Nat)
  | handle (id : Nat) (handle : List Nat)
  | dataR (id : Nat) (data : List Nat)
  | nameR (id : Nat) (entries : List (List Nat × Attrs))
  | attrsR (id : Nat) (attrs : Attrs)
deriving DecidableEq, Repr

/-- Encode the entries of a `nameR` response, in order. -/
def putEntries : List (List Nat × Attrs) → List Nat
  | [] => []
  | (name, a) :: es => putBytes name ++ putAttrs a ++ putEntries es

/-- Read `n` entries of a `nameR` response. -/
def getEntries : Nat → List Nat → Option (List (List Nat × Attrs) × List Nat)
  | 0, bs => some ([], bs)
  | n + 1, bs => do
    let (name, r1) ← getBytes bs
    let (a, r2) ← getAttrs r1
    let (es, r3) ← getEntries n r2
    some ((name, a) :: es, r3)

/-- Message body: opcode byte, request id, payload fields. -/
def encodeBody : SftpMessage → List Nat
  | .openF id path pflags a => 3 :: (putU32 id ++ putBytes path ++ putU32 pflags ++ putAttrs a)
  | .close id h => 4 :: (putU32 id ++ putBytes h)
  | .readF id h off len => 5 :: (putU32 id ++ putBytes h ++ putU64 off ++ putU32 len)
  | .writeF id h off d => 6 :: (putU32 id ++ putBytes h ++ putU64 off ++ putBytes d)
  | .opendir id path => 11 :: (putU32 id ++ putBytes path)
  | .readdir id h => 12 :: (putU32 id ++ putBytes h)
  | .remove id path => 13 :: (putU32 id ++ putBytes path)
  | .mkdir id path a => 14 :: (putU32 id ++ putBytes path ++ putAttrs a)
  | .rmdir id path => 15 :: (putU32 id ++ putBytes path)
  | .stat id path => 17 :: (putU32 id ++ putBytes path)
  | .rename id o n => 18 :: (putU32 id ++ putBytes o ++ putBytes n)
  | .status id code msg => 101 :: (putU32 id ++ putU32 code ++ putBytes msg)
  | .handle id h => 102 :: (putU32 id ++ putBytes h)
  | .dataR id d => 103 :: (putU32 id ++ putBytes d)
  | .nameR id es => 104 :: (putU32 id ++ putU32 es.length ++ putEntries es)
  | .attrsR id a => 105 :: (putU32 id ++ putAttrs a)

/-- Modelled from the spec: `encode(message) -> bytes` — a pure function;
the body is framed with a 4-byte length prefix. -/
def encode (m : SftpMessage) : List Nat :=
  putU32 (encodeBody m).length ++ encodeBody m

/-- Decode one payload, given the opcode; the payload must be consumed
exactly. -/
def decodeBody (op : Nat) (body : List Nat) : Option SftpMessage :=
  match op with
  | 3 => do
    let (id, r1) ← getU32 body
    let (path, r2) ← getBytes r1
    let (pflags, r3) ← getU32 r2
    let (a, r4) ← getAttrs r3
    if r4 = [] then some (.openF id path pflags a) else none
  | 4 => do
    let (id, r1) ← getU32 body
    let (h, r2) ← getBytes r1
    if r2 = [] then some (.close id h) else none
  | 5 => do
    let (id, r1) ← getU32 body
    let (h, r2) ← getBytes r1
    let (off, r3) ← getU64 r2
    let (len, r4) ← getU32 r3
    if r4 = [] then some (.readF id h off len) else none
  | 6 => do
    let (id, r1) ← getU32 body
    let (h, r2) ← getBytes r1
    let (off, r3) ← getU64 r2
    let (d, r4) ← getBytes r3
    if r4 = [] then some (.writeF id h off d) else none
  | 11 => do
    let (id, r1) ← getU32 body
    let (path, r2) ← getBytes r1
    if r2 = [] then some (.opendir id path) else none
  | 12 => do
    let (id, r1) ← getU32 body
    let (h, r2) ← getBytes r1
    if r2 = [] then some (.readdir id h) else none
  | 13 => do
    let (id, r1) ← getU32 body
    let (path, r2) ← getBytes r1
    if r2 = [] then some (.remove id path) else none
  | 14 => do
    let (id, r1) ← getU32 body
    let (path, r2) ← getBytes r1
    let (a, r3) ← getAttrs r2
    if r3 = [] then some (.mkdir id path a) else none
  | 15 => do
    let (id, r1) ← getU32 body
    let (path, r2) ← getBytes r1
    if r2 = [] then some (.rmdir id path) else none
  | 17 => do
    let (id, r1) ← getU32 body
    let (path, r2) ← getBytes r1
    if r2 = [] then some (.stat id path) else none
  | 18 => do
    let (id, r1) ← getU32 body
    let (o, r2) ← getBytes r1
    let (n, r3) ← getBytes r2
    if r3 = [] then some (.rename id o n) else none
  | 101 => do
    let (id, r1) ← getU32 body
    let (code, r2) ← getU32 r1
    let (msg, r3) ← getBytes r2
    if r3 = [] then some (.status id code msg) else none
  | 102 => do
    let (id, r1) ← getU32 body
    let (h, r2) ← getBytes r1
    if r2 = [] then some (.handle id h) else none
  | 103 => do
    let (id, r1) ← getU32 body
    let (d, r2) ← getBytes r1
    if r2 = [] then some (.dataR id d) else none
  | 104 => do
    let (id, r1) ← getU32 body
    let (count, r2) ← getU32 r1
    let (es, r3) ← getEntries count r2
    if r3 = [] then some (.nameR id es) else none
  | 105 => do
    let (id, r1) ← getU32 body
    let (a, r2) ← getAttrs r1
    if r2 = [] then some (.attrsR id a) else none
  | _ => none

/-- Modelled from the spec: `decode(bytes) -> message` — a pure function
failing with `MalformedPacket` on truncated input, a length prefix
inconsistent with the remaining buffer, or an unknown opcode. -/
def decode (bs : List Nat) : Except CodecError SftpMessage :=
  match getU32 bs with
  | none => .error .malformedPacket
  | some (len, rest) =>
    if rest.length = len then
      match rest with
      | [] => .error .malformedPacket
      | op :: body =>
        match decodeBody op body with
        | some m => .ok m
        | none => .error .malformedPacket
    else .error .malformedPacket

/-- Validity of one message: the request id and every length-prefixed or
fixed-width field fits its wire width, and the framed body length fits
the length prefix. -/
def SftpMessage.Wf (m : SftpMessage) : Prop :=
  (match m with
    | .openF id path pflags a =>
      id < 2 ^ 32 ∧ path.length < 2 ^ 32 ∧ pflags < 2 ^ 32 ∧ AttrsWf a
    | .close id h => id < 2 ^ 32 ∧ h.length < 2 ^ 32
    | .readF id h off len =>
      id < 2 ^ 32 ∧ h.length < 2 ^ 32 ∧ off < 2 ^ 64 ∧ len < 2 ^ 32
    | .writeF id h off d =>
      id < 2 ^ 32 ∧ h.length < 2 ^ 32 ∧ off < 2 ^ 64 ∧ d.length < 2 ^ 32
    | .opendir id path => id < 2 ^ 32 ∧ path.length < 2 ^ 32
    | .readdir id h => id < 2 ^ 32 ∧ h.length < 2 ^ 32
    | .remove id path => id < 2 ^ 32 ∧ path.length < 2 ^ 32
    | .mkdir id path a => id < 2 ^ 32 ∧ path.length < 2 ^ 32 ∧ AttrsWf a
    | .rmdir id path => id < 2 ^ 32 ∧ path.length < 2 ^ 32
    | .stat id path => id < 2 ^ 32 ∧ path.length < 2 ^ 32
    | .rename id o n => id < 2 ^ 32 ∧ o.length < 2 ^ 32 ∧ n.length < 2 ^ 32
    | .status id code msg => id < 2 ^ 32 ∧ code < 2 ^ 32 ∧ msg.length < 2 ^ 32
    | .handle id h => id < 2 ^ 32 ∧ h.length < 2 ^ 32
    | .dataR id d => id < 2 ^ 32 ∧ d.length < 2 ^ 32
    | .nameR id es =>
      id < 2 ^ 32 ∧ es.length < 2 ^ 32 ∧
        ∀ e ∈ es, e.1.length < 2 ^ 32 ∧ AttrsWf e.2
    | .attrsR id a => id < 2 ^ 32 ∧ AttrsWf a) ∧
  (encodeBody m).length < 2 ^ 32

end WireCodec

/-! ## Wire-codec round-trip lemmas -/

namespace WireCodec

theorem getU32_put (n : Nat) (r : List Nat) (h : n < 2 ^ 32) :
    getU32 (putU32 n ++ r) = some (n, r) := by
  simp only [putU32, getU32, List.cons_append, List.nil_append]
  congr 1
  rw [Prod.mk.injEq]
  exact ⟨by omega, rfl⟩

theorem getU64_put (n : Nat) (r : List Nat) (h : n < 2 ^ 64) :
    getU64 (putU64 n ++ r) = some (n, r) := by
  have h1 : n / 2 ^ 32 < 2 ^ 32 := by omega
  have h2 : n % 2 ^ 32 < 2 ^ 32 := by omega
  simp only [putU64, List.append_assoc, getU64, getU32_put _ _ h1, getU32_put _ _ h2]
  congr 1
  rw [Prod.mk.injEq]
  exact ⟨by omega, rfl⟩

theorem getPair32_put (p : Nat × Nat) (r : List Nat) (h1 : p.1 < 2 ^ 32) (h2 : p.2 < 2 ^ 32) :
    getPair32 (putPair32 p ++ r) = some (p, r) := by
  simp only [putPair32, List.append_assoc, getPair32, getU32_put _ _ h1, getU32_put _ _ h2]

theorem getBytes_put (s : List Nat) (r : List Nat) (h : s.length < 2 ^ 32) :
    getBytes (putBytes s ++ r) = some (s, r) := by
  simp only [putBytes, List.append_assoc, getBytes, getU32_put _ _ h]
  rw [if_pos (by simp)]
  simp



theorem getU32_put_nil (n : Nat) (h : n < 2 ^ 32) :
    getU32 (putU32 n) = some (n, []) := by
  simpa using getU32_put n [] h

theorem getOpt_put {α : Type} (v : Option α) (put1 : α → List Nat)
    (get1 : List Nat → Option (α × List Nat)) (r : List Nat)
    (hrt : ∀ x, v = some x → get1 (put1 x ++ r) = some (x, r)) :
    getOpt v.isSome get1 (putOpt v put1 ++ r) = some (v, r) := by
  cases v with
  | none => simp [getOpt, putOpt]
  | some x => simp [getOpt, putOpt, hrt x rfl]

theorem attrFlags_bit0 (a : Attrs) : (attrFlags a % 2 == 1) = a.size.isSome := by
  rcases a with ⟨s, u, p, t⟩
  cases s <;> cases u <;> cases p <;> cases t <;> simp [attrFlags]

theorem attrFlags_bit1 (a : Attrs) : (attrFlags a / 2 % 2 == 1) = a.uidgid.isSome := by
  rcases a with ⟨s, u, p, t⟩
  cases s <;> cases u <;> cases p <;> cases t <;> simp [attrFlags]

theorem attrFlags_bit2 (a : Attrs) : (attrFlags a / 4 % 2 == 1) = a.permissions.isSome := by
  rcases a with ⟨s, u, p, t⟩
  cases s <;> cases u <;> cases p <;> cases t <;> simp [attrFlags]

theorem attrFlags_bit3 (a : Attrs) : (attrFlags a / 8 % 2 == 1) = a.acmodtime.isSome := by
  rcases a with ⟨s, u, p, t⟩
  cases s <;> cases u <;> cases p <;> cases t <;> simp [attrFlags]

theorem attrFlags_lt (a : Attrs) : attrFlags a < 2 ^ 32 := by
  unfold attrFlags
  split_ifs <;> norm_num

theorem getAttrs_put (a : Attrs) (r : List Nat) (h : AttrsWf a) :
    getAttrs (putAttrs a ++ r) = some (a, r) := by
  obtain ⟨h1, h2, h3, h4⟩ := h
  simp only [putAttrs, getAttrs, List.append_assoc, Option.bind_eq_bind]
  rw [getU32_put _ _ (attrFlags_lt a)]
  simp only [Option.some_bind]
  rw [attrFlags_bit0, getOpt_put a.size putU64 getU64 _
    (fun x hx => getU64_put x _ (by simp only [hx] at h1; exact h1))]
  simp only [Option.some_bind]
  rw [attrFlags_bit1, getOpt_put a.uidgid putPair32 getPair32 _
    (fun x hx => getPair32_put x _ (by simp only [hx] at h2; exact h2.1)
      (by simp only [hx] at h2; exact h2.2))]
  simp only [Option.some_bind]
  rw [attrFlags_bit2, getOpt_put a.permissions putU32 getU32 _
    (fun x hx => getU32_put x _ (by simp only [hx] at h3; exact h3))]
  simp only [Option.some_bind]
  rw [attrFlags_bit3, getOpt_put a.acmodtime putPair32 getPair32 _
    (fun x hx => getPair32_put x _ (by simp only [hx] at h4; exact h4.1)
      (by simp only [hx] at h4; exact h4.2))]
  simp only [Option.some_bind]

theorem getAttrs_put_nil (a : Attrs) (h : AttrsWf a) :
    getAttrs (putAttrs a) = some (a, []) := by
  simpa using getAttrs_put a [] h



theorem getBytes_put_nil (s : List Nat) (h : s.length < 2 ^ 32) :
    getBytes (putBytes s) = some (s, []) := by
  simpa using getBytes_put s [] h

theorem getEntries_put (es : List (List Nat × Attrs)) (r : List Nat)
    (h : ∀ e ∈ es, e.1.length < 2 ^ 32 ∧ AttrsWf e.2) :
    getEntries es.length (putEntries es ++ r) = some (es, r) := by
  induction es generalizing r with
  | nil => simp [putEntries, getEntries]
  | cons e es ih =>
    rcases e with ⟨name, a⟩
    have he := h (name, a) (List.mem_cons_self _ _)
    simp only [putEntries, List.length_cons, getEntries, List.append_assoc,
      Option.bind_eq_bind]
    rw [getBytes_put _ _ he.1]
    simp only [Option.some_bind]
    rw [getAttrs_put _ _ he.2]
    simp only [Option.some_bind]
    rw [ih _ (fun x hx => h x (List.mem_cons_of_mem _ hx))]
    simp only [Option.some_bind]

theorem getEntries_put_nil (es : List (List Nat × Attrs))
    (h : ∀ e ∈ es, e.1.length < 2 ^ 32 ∧ AttrsWf e.2) :
    getEntries es.length (putEntries es) = some (es, []) := by
  simpa using getEntries_put es [] h

theorem decode_encode (m : SftpMessage) (h : m.Wf) : decode (encode m) = .ok m := by
  obtain ⟨hc, hlen⟩ := h
  rw [encode]
  simp only [decode]
  rw [getU32_put _ _ hlen]
  cases m with
  | openF id path pflags a =>
    obtain ⟨hid, hpath, hpf, ha⟩ := hc
    simp only [encodeBody, decodeBody, List.append_assoc, Option.bind_eq_bind,
      Option.some_bind, getU32_put, getBytes_put, getAttrs_put_nil, hid, hpath, hpf, ha,
      List.cons_append, if_true, List.nil_append]
  | close id hdl =>
    obtain ⟨hid, hh⟩ := hc
    simp only [encodeBody, decodeBody, List.append_assoc, Option.bind_eq_bind,
      Option.some_bind, getU32_put, getBytes_put_nil, hid, hh, if_true]
  | readF id hdl off len =>
    obtain ⟨hid, hh, hoff, hlen2⟩ := hc
    simp only [encodeBody, decodeBody, List.append_assoc, Option.bind_eq_bind,
      Option.some_bind, getU32_put, getBytes_put, getU64_put, getU32_put_nil,
      hid, hh, hoff, hlen2, if_true]
  | writeF id hdl off d =>
    obtain ⟨hid, hh, hoff, hd⟩ := hc
    simp only [encodeBody, decodeBody, List.append_assoc, Option.bind_eq_bind,
      Option.some_bind, getU32_put, getBytes_put, getU64_put, getBytes_put_nil,
      hid, hh, hoff, hd, if_true]
  | opendir id path =>
    obtain ⟨hid, hp⟩ := hc
    simp only [encodeBody, decodeBody, List.append_assoc, Option.bind_eq_bind,
      Option.some_bind, getU32_put, getBytes_put_nil, hid, hp, if_true]
  | readdir id hdl =>
    obtain ⟨hid, hh⟩ := hc
    simp only [encodeBody, decodeBody, List.append_assoc, Option.bind_eq_bind,
      Option.some_bind, getU32_put, getBytes_put_nil, hid, hh, if_true]
  | remove id path =>
    obtain ⟨hid, hp⟩ := hc
    simp only [encodeBody, decodeBody, List.append_assoc, Option.bind_eq_bind,
      Option.some_bind, getU32_put, getBytes_put_nil, hid, hp, if_true]
  | mkdir id path a =>
    obtain ⟨hid, hp, ha⟩ := hc
    simp only [encodeBody, decodeBody, List.append_assoc, Option.bind_eq_bind,
      Option.some_bind, getU32_put, getBytes_put, getAttrs_put_nil, hid, hp, ha, if_true]
  | rmdir id path =>
    obtain ⟨hid, hp⟩ := hc
    simp only [encodeBody, decodeBody, List.append_assoc, Option.bind_eq_bind,
      Option.some_bind, getU32_put, getBytes_put_nil, hid, hp, if_true]
  | stat id path =>
    obtain ⟨hid, hp⟩ := hc
    simp only [encodeBody, decodeBody, List.append_assoc, Option.bind_eq_bind,
      Option.some_bind, getU32_put, getBytes_put_nil, hid, hp, if_true]
  | rename id o n =>
    obtain ⟨hid, ho, hn⟩ := hc
    simp only [encodeBody, decodeBody, List.append_assoc, Option.bind_eq_bind,
      Option.some_bind, getU32_put, getBytes_put, getBytes_put_nil, hid, ho, hn, if_true]
  | status id code msg =>
    obtain ⟨hid, hcode, hmsg⟩ := hc
    simp only [encodeBody, decodeBody, List.append_assoc, Option.bind_eq_bind,
      Option.some_bind, getU32_put, getBytes_put_nil, hid, hcode, hmsg, if_true]
  | handle id hdl =>
    obtain ⟨hid, hh⟩ := hc
    simp only [encodeBody, decodeBody, List.append_assoc, Option.bind_eq_bind,
      Option.some_bind, getU32_put, getBytes_put_nil, hid, hh, if_true]
  | dataR id d =>
    obtain ⟨hid, hd⟩ := hc
    simp only [encodeBody, decodeBody, List.append_assoc, Option.bind_eq_bind,
      Option.some_bind, getU32_put, getBytes_put_nil, hid, hd, if_true]
  | nameR id es =>
    obtain ⟨hid, hcount, hes⟩ := hc
    simp only [encodeBody, decodeBody, List.append_assoc, Option.bind_eq_bind,
      Option.some_bind, getU32_put, hid, hcount, if_true]
    rw [getEntries_put_nil es hes]
    simp only [Option.some_bind, if_true, reduceIte]
  | attrsR id a =>
    obtain ⟨hid, ha⟩ := hc
    simp only [encodeBody, decodeBody, List.append_assoc, Option.bind_eq_bind,
      Option.some_bind, getU32_put, getAttrs_put_nil, hid, ha, if_true]

end WireCodec

/-! ## Facade helper lemmas -/

namespace SftpJs

theorem notConnected_runOp (o : FacadeOp) (st : SFTPClientState) (w : World)
    (h : st.connected = false) :
    runOp o st w = (.error "Not connected to server", []) := by
  cases o <;>
    simp [runOp, SFTPClient.list, SFTPClient.put, SFTPClient.get, SFTPClient.delete,
      SFTPClient.mkdir, SFTPClient.rmdir, SFTPClient.rename, SFTPClient.chmod,
      SFTPClient.existsOp, SFTPClient.stat, SFTPClient.readFile, SFTPClient.writeFile,
      SFTPClient.putDir, SFTPClient.getDir, SFTPClient.pwd, SFTPClient.checkConnection, h]

theorem connected_runOp_ok (o : FacadeOp) (st : SFTPClientState) (w : World)
    (h : st.connected = true) :
    ∃ r, (runOp o st w).1 = .ok r := by
  cases o <;>
    (simp only [runOp, SFTPClient.list, SFTPClient.put, SFTPClient.get, SFTPClient.delete,
        SFTPClient.mkdir, SFTPClient.rmdir, SFTPClient.rename, SFTPClient.chmod,
        SFTPClient.existsOp, SFTPClient.stat, SFTPClient.readFile, SFTPClient.writeFile,
        SFTPClient.putDir, SFTPClient.getDir, SFTPClient.pwd,
        SFTPClient.checkConnection, h, if_true] <;>
      repeat' split) <;>
    exact ⟨_, rfl⟩

theorem runOp_ok_shape (o : FacadeOp) (st : SFTPClientState) (w : World)
    (r : OperationResult) (hr : (runOp o st w).1 = .ok r) (hs : r.success = false) :
    r.error.isSome := by
  cases o <;>
    (simp only [runOp, SFTPClient.list, SFTPClient.put, SFTPClient.get, SFTPClient.delete,
        SFTPClient.mkdir, SFTPClient.rmdir, SFTPClient.rename, SFTPClient.chmod,
        SFTPClient.existsOp, SFTPClient.stat, SFTPClient.readFile, SFTPClient.writeFile,
        SFTPClient.putDir, SFTPClient.getDir, SFTPClient.pwd, SFTPClient.checkConnection,
        SFTPClient.listLocal, SFTPClient.putLocal, SFTPClient.getLocal,
        SFTPClient.deleteLocal, SFTPClient.mkdirLocal, SFTPClient.rmdirLocal,
        SFTPClient.renameLocal, SFTPClient.chmodLocal, SFTPClient.existsLocal,
        SFTPClient.statLocal, SFTPClient.readFileLocal, SFTPClient.writeFileLocal,
        SFTPClient.putDirLocal, SFTPClient.getDirLocal] at hr <;>
      repeat' split at hr) <;>
    (simp at hr <;> (try subst hr) <;> simp_all)

theorem connect_shape (w : World) (cfg : SFTPConfig) :
    ((SFTPClient.connect w cfg).1.success = false →
      (SFTPClient.connect w cfg).1.error.isSome) := by
  simp only [SFTPClient.connect, SFTPClient.finishConnect, SFTPClient.authRequiredFailure]
  repeat' split
  all_goals simp

theorem disconnect_shape (st : SFTPClientState) (w : World) :
    ((SFTPClient.disconnect st w).1.success = false →
      (SFTPClient.disconnect st w).1.error.isSome) := by
  simp only [SFTPClient.disconnect]
  repeat' split
  all_goals simp

end SftpJs

namespace SftpJs

theorem foldl_trace_pred {β : Type} (P : IOCall → Prop)
    (f : Except String Unit × List IOCall → β → Except String Unit × List IOCall)
    (hf : ∀ acc d, (∀ c ∈ acc.2, P c) → ∀ c ∈ (f acc d).2, P c) :
    ∀ (l : List β) (acc : Except String Unit × List IOCall),
      (∀ c ∈ acc.2, P c) → ∀ c ∈ (l.foldl f acc).2, P c := by
  intro l
  induction l with
  | nil => intro acc hacc; simpa using hacc
  | cons d l ih =>
    intro acc hacc
    rw [List.foldl_cons]
    exact ih _ (hf acc d hacc)

theorem statEntries_iface (w : World) (dirPath : String) (l : List DirEnt) :
    ∀ c ∈ (SFTPClient.statEntries w dirPath l).2, c.iface = "fs" := by
  induction l with
  | nil => simp [SFTPClient.statEntries]
  | cons d l ih =>
    intro c hc
    rw [SFTPClient.statEntries] at hc
    split at hc
    · simp at hc
      simp [hc]
    · rcases hst : SFTPClient.statEntries w dirPath l with ⟨r, tr⟩
      rw [hst] at hc
      simp at hc
      rcases hc with hc | hc
      · simp [hc]
      · exact ih c (by rw [hst]; exact hc)

theorem ensureDest_iface (w : World) (dest : String) :
    ∀ c ∈ (SFTPClient.ensureDest w dest).2, c.iface = "fs" := by
  rw [SFTPClient.ensureDest]
  repeat' split
  all_goals simp

theorem copyStep_iface (w : World) (go : String → String → Except String Unit × List IOCall)
    (hgo : ∀ s d, ∀ c ∈ (go s d).2, c.iface = "fs")
    (src dest : String) (acc : Except String Unit × List IOCall)
    (hacc : ∀ c ∈ acc.2, c.iface = "fs") :
    ∀ d, ∀ c ∈ (SFTPClient.copyStep w go src dest acc d).2, c.iface = "fs" := by
  intro d c hc
  rw [SFTPClient.copyStep.eq_def] at hc
  split at hc
  · exact hacc c hc
  · rename_i u t
    dsimp only at hc
    split at hc
    · rcases hgd : go (pathJoin src d.name) (pathJoin dest d.name) with ⟨r2, t2⟩
      rw [hgd] at hc
      simp at hc
      rcases hc with hc | hc
      · exact hacc c (by simpa using hc)
      · exact hgo _ _ c (by rw [hgd]; exact hc)
    · split at hc <;>
        · simp at hc
          rcases hc with hc | hc
          · exact hacc c (by simpa using hc)
          · simp [hc]

theorem copyDirRecursive_iface (w : World) :
    ∀ (fuel : Nat) (src dest : String),
      ∀ c ∈ (SFTPClient.copyDirRecursive w fuel src dest).2, c.iface = "fs" := by
  intro fuel
  induction fuel with
  | zero => intro src dest c hc; simp [SFTPClient.copyDirRecursive] at hc
  | succ n ih =>
    intro src dest c hc
    rw [SFTPClient.copyDirRecursive] at hc
    split at hc
    · rename_i e tr heq
      exact ensureDest_iface w dest c (by rw [heq]; exact hc)
    · rename_i u tr heq
      have htr : ∀ c ∈ tr, c.iface = "fs" := by
        intro x hx
        exact ensureDest_iface w dest x (by rw [heq]; exact hx)
      split at hc
      · simp at hc
        rcases hc with hc | hc
        · exact htr c hc
        · simp [hc]
      · refine foldl_trace_pred _ _ (fun acc d hacc => copyStep_iface w _ ih src dest acc hacc d)
          _ _ ?_ c hc
        intro x hx
        simp at hx
        rcases hx with hx | hx
        · exact htr x hx
        · simp [hx]

end SftpJs

namespace SftpJs

theorem runOp_local_iface (o : FacadeOp) (st : SFTPClientState) (w : World)
    (h : SFTPClient.isLocalhost st = true) (c : IOCall) (hc : c ∈ (runOp o st w).2) :
    c.iface = "fs" ∨ c.iface = "process" := by
  cases o
  case list p =>
    simp only [runOp, SFTPClient.list, SFTPClient.checkConnection, h, if_true] at hc
    split at hc
    · simp at hc
    · rw [SFTPClient.listLocal] at hc
      split at hc
      · simp at hc
        left
        simp [hc]
      · split at hc <;>
          (rename_i tr heq
           simp at hc
           rcases hc with hc | hc
           · left; simp [hc]
           · left; exact statEntries_iface w p _ c (by rw [heq]; exact hc))
  case putDir ld rd =>
    simp only [runOp, SFTPClient.putDir, SFTPClient.checkConnection, h, if_true] at hc
    split at hc
    · simp at hc
    · rw [SFTPClient.putDirLocal] at hc
      split at hc <;>
        (rename_i tr heq
         left
         exact copyDirRecursive_iface w w.fuel _ _ c (by rw [heq]; exact hc))
  case getDir rd ld =>
    simp only [runOp, SFTPClient.getDir, SFTPClient.checkConnection, h, if_true] at hc
    split at hc
    · simp at hc
    · rw [SFTPClient.getDirLocal, SFTPClient.putDirLocal] at hc
      split at hc <;>
        (rename_i tr heq
         left
         exact copyDirRecursive_iface w w.fuel _ _ c (by rw [heq]; exact hc))
  all_goals
    (simp only [runOp, SFTPClient.put, SFTPClient.get, SFTPClient.delete, SFTPClient.mkdir,
        SFTPClient.rmdir, SFTPClient.rename, SFTPClient.chmod, SFTPClient.existsOp,
        SFTPClient.stat, SFTPClient.readFile, SFTPClient.writeFile, SFTPClient.pwd,
        SFTPClient.checkConnection, SFTPClient.putLocal, SFTPClient.getLocal,
        SFTPClient.deleteLocal, SFTPClient.mkdirLocal, SFTPClient.rmdirLocal,
        SFTPClient.renameLocal, SFTPClient.chmodLocal, SFTPClient.existsLocal,
        SFTPClient.statLocal, SFTPClient.readFileLocal, SFTPClient.writeFileLocal,
        h, if_true] at hc <;>
      repeat' split at hc)
  all_goals simp at hc
  all_goals
    first
    | (subst hc; simp)
    | (rcases hc with rfl | rfl <;> simp)

theorem runOp_remote_iface (o : FacadeOp) (st : SFTPClientState) (w : World)
    (h : SFTPClient.isLocalhost st = false) (c : IOCall) (hc : c ∈ (runOp o st w).2) :
    c.iface = "client" := by
  cases o <;>
    (simp only [runOp, SFTPClient.list, SFTPClient.put, SFTPClient.get, SFTPClient.delete,
        SFTPClient.mkdir, SFTPClient.rmdir, SFTPClient.rename, SFTPClient.chmod,
        SFTPClient.existsOp, SFTPClient.stat, SFTPClient.readFile, SFTPClient.writeFile,
        SFTPClient.putDir, SFTPClient.getDir, SFTPClient.pwd,
        SFTPClient.checkConnection, h, Bool.false_eq_true, if_false] at hc <;>
      repeat' split at hc) <;>
    (simp at hc <;> simp [hc])

end SftpJs

namespace SftpJs

theorem connect_localhost (w : World) (cfg : SFTPConfig)
    (h : cfg.host = "localhost" ∨ cfg.host = "127.0.0.1") :
    SFTPClient.connect w cfg =
      ({ success := true, message := "Connected to localhost" },
       { connected := true, config := some cfg }, []) := by
  rcases h with h | h <;> simp [SFTPClient.connect, h]

theorem connect_success_or (w : World) (cfg : SFTPConfig) :
    ((SFTPClient.connect w cfg).1.success = true ∧
      (SFTPClient.connect w cfg).2.1.connected = true) ∨
    ((SFTPClient.connect w cfg).1.success = false ∧
      (SFTPClient.connect w cfg).2.1.connected = false) := by
  rw [SFTPClient.connect]
  simp only [SFTPClient.finishConnect, SFTPClient.authRequiredFailure]
  repeat' split
  all_goals simp

theorem connect_fail_not_connected (w : World) (cfg : SFTPConfig)
    (h : (SFTPClient.connect w cfg).1.success = false) :
    (SFTPClient.connect w cfg).2.1.connected = false := by
  rcases connect_success_or w cfg with ⟨h1, h2⟩ | ⟨h1, h2⟩
  · simp [h] at h1
  · exact h2

theorem connect_isLocalhost (w : World) (cfg : SFTPConfig) :
    SFTPClient.isLocalhost (SFTPClient.connect w cfg).2.1 =
      (parsedHost cfg.host = "localhost" || parsedHost cfg.host = "127.0.0.1") := by
  rw [SFTPClient.connect]
  split
  · rename_i h
    simp only [SFTPClient.isLocalhost]
    rw [Bool.or_eq_true, decide_eq_true_eq, decide_eq_true_eq] at h
    rcases h with h | h <;> rw [h] <;> decide
  · simp only [SFTPClient.finishConnect, SFTPClient.authRequiredFailure]
    repeat' split
    all_goals simp [SFTPClient.isLocalhost]

end SftpJs

/-! ## Claim theorems -/

namespace SftpJs

theorem disconnect_cases (st : SFTPClientState) (w : World) :
    ((SFTPClient.disconnect st w).1.success = true ∧
      (SFTPClient.disconnect st w).2.1.connected = false) ∨
    ((SFTPClient.disconnect st w).1.success = false ∧
      (SFTPClient.disconnect st w).2.1 = st) := by
  rw [SFTPClient.disconnect]
  repeat' split
  all_goals simp

end SftpJs

namespace SftpJs

/-- C1 counterexample: on a connected remote client whose `rename` is
rejected with detail `NoSuchFile`, the facade returns a failure result
whose present fields are `success`, `message` and `error` — there is no
`errorKind` field, so the claimed shape (and its errorKind-on-failure
consequence) does not hold of the code's results. -/
theorem C1_counterexample :
    (SFTPClient.rename stRemote worldRenameNoSuch "/a" "/b").1 =
      .ok { success := false, message := "Rename failed", error := some "NoSuchFile" } ∧
    OperationResult.fieldNames
        { success := false, message := "Rename failed", error := some "NoSuchFile" } =
      ["success", "message", "error"] ∧
    "errorKind" ∉ OperationResult.fieldNames
        { success := false, message := "Rename failed", error := some "NoSuchFile" } := by
  refine ⟨rfl, rfl, by decide⟩

/-- C1 (amended): every public facade call (`connect`, `disconnect` and the
thirteen path operations plus `pwd`) that returns rather than throws yields
an `OperationResult` — the uniform shape `{success, message, data?, error?}`
— and every failure result carries the `error` field (there is no
`errorKind` field). -/
theorem C1_uniform_result_shape (c : Call) (st : SFTPClientState) (w : World)
    (r : OperationResult) (hr : (runCall c st w).1 = .ok r) (hs : r.success = false) :
    r.error.isSome := by
  cases c with
  | connect cfg =>
    have hsh := connect_shape w cfg
    rcases hcv : SFTPClient.connect w cfg with ⟨r0, rest⟩
    rw [hcv] at hsh
    simp only [runCall, hcv] at hr
    injection hr with h
    subst h
    exact hsh hs
  | disconnect =>
    have hsh := disconnect_shape st w
    rcases hcv : SFTPClient.disconnect st w with ⟨r0, rest⟩
    rw [hcv] at hsh
    simp only [runCall, hcv] at hr
    injection hr with h
    subst h
    exact hsh hs
  | op o =>
    rcases hov : runOp o st w with ⟨r0, t0⟩
    simp only [runCall, hov] at hr
    exact runOp_ok_shape o st w r (by rw [hov]; exact hr) hs

theorem C1_uniform_result_shape_witness :
    (runCall (.connect cfgNoAuth) initialState defaultWorld).1 =
      .ok { success := false, message := "Connection failed",
            error := some "Password or private key is required" } ∧
    (Option.isSome (some "Password or private key is required") : Prop) :=
  ⟨rfl, C1_uniform_result_shape (.connect cfgNoAuth) initialState defaultWorld _ rfl rfl⟩

end SftpJs

namespace SftpJs

/-- C2: a freshly constructed client is not connected; a disconnect that
completed (returned success) leaves the client not connected; and on any
not-connected client every facade operation other than `connect` and
`disconnect` throws the `Not connected to server` precondition error with
an empty I/O trace — no server or filesystem call is attempted. -/
theorem C2_not_connected_precondition (o : FacadeOp) (w : World) :
    SFTPClient.isConnected initialState = false ∧
    (∀ (st : SFTPClientState), SFTPClient.isConnected st = false →
      runOp o st w = (.error "Not connected to server", [])) ∧
    (∀ (st : SFTPClientState) (w₂ : World),
      (SFTPClient.disconnect st w₂).1.success = true →
      runOp o (SFTPClient.disconnect st w₂).2.1 w =
        (.error "Not connected to server", [])) := by
  refine ⟨rfl, fun st h => notConnected_runOp o st w h, fun st w₂ h => ?_⟩
  rcases disconnect_cases st w₂ with ⟨h1, h2⟩ | ⟨h1, h2⟩
  · exact notConnected_runOp o _ w h2
  · rw [h] at h1
    cases h1

theorem C2_witness :
    runOp (.list "/") initialState defaultWorld =
      (.error "Not connected to server", []) :=
  (C2_not_connected_precondition (.list "/") defaultWorld).2.1 initialState rfl

/-- C3: on a connected client every facade operation returns a structured
result (never throws), and whenever an operation does throw, the thrown
error is the `NotConnected` precondition and the I/O trace is empty (the
exception precedes any I/O). -/
theorem C3_no_throw_when_connected (o : FacadeOp) (st : SFTPClientState) (w : World) :
    (SFTPClient.isConnected st = true → ∃ r, (runOp o st w).1 = .ok r) ∧
    (∀ e, (runOp o st w).1 = .error e →
      e = "Not connected to server" ∧ (runOp o st w).2 = []) := by
  constructor
  · exact fun h => connected_runOp_ok o st w h
  · intro e he
    cases hcn : st.connected with
    | true =>
      rcases connected_runOp_ok o st w hcn with ⟨r, hr⟩
      rw [he] at hr
      cases hr
    | false =>
      have hn := notConnected_runOp o st w hcn
      rw [hn] at he ⊢
      injection he with h2
      exact ⟨h2.symm, rfl⟩

theorem C3_witness :
    SFTPClient.isConnected stRemote = true ∧
    (∃ r, (runOp (.list "/") stRemote defaultWorld).1 = .ok r) :=
  ⟨rfl, (C3_no_throw_when_connected (.list "/") stRemote defaultWorld).1 rfl⟩

/-- C4 counterexample: with the server rejecting `rename('/a','/b')` with
detail `NoSuchFile`, the facade returns `message = "Rename failed"` (the
fixed message of the catch clause), not `message = "NoSuchFile"` as the
claim states, and the result has no `errorKind` field. -/
theorem C4_counterexample :
    (SFTPClient.rename stRemote worldRenameNoSuch "/a" "/b").1 =
      .ok { success := false, message := "Rename failed", error := some "NoSuchFile" } ∧
    ("Rename failed" : String) ≠ "NoSuchFile" ∧
    "errorKind" ∉ OperationResult.fieldNames
        { success := false, message := "Rename failed", error := some "NoSuchFile" } :=
  ⟨rfl, by decide, by decide⟩

/-- C4 (amended): on a connected remote client, when the underlying
client rejects `rename(oldPath,newPath)` with a server-provided detail,
the facade returns `{success: false, message: 'Rename failed',
error: detail}` — the detail appears in the `error` field, the `message`
is the fixed string, and no `errorKind` field exists. -/
theorem C4_rename_failure_shape (st : SFTPClientState) (w : World)
    (oldPath newPath detail : String)
    (hconn : SFTPClient.isConnected st = true)
    (hloc : SFTPClient.isLocalhost st = false)
    (hw : w.clientRename oldPath newPath = .error detail) :
    SFTPClient.rename st w oldPath newPath =
      (.ok { success := false, message := "Rename failed", error := some detail },
       [⟨"client", "rename", [oldPath, newPath]⟩]) := by
  rw [SFTPClient.isConnected] at hconn
  simp [SFTPClient.rename, SFTPClient.checkConnection, hconn, hloc, hw]

theorem C4_rename_failure_shape_witness :
    SFTPClient.isConnected stRemote = true ∧
    SFTPClient.isLocalhost stRemote = false ∧
    worldRenameNoSuch.clientRename "/a" "/b" = .error "NoSuchFile" ∧
    SFTPClient.rename stRemote worldRenameNoSuch "/a" "/b" =
      (.ok { success := false, message := "Rename failed", error := some "NoSuchFile" },
       [⟨"client", "rename", ["/a", "/b"]⟩]) :=
  ⟨rfl, rfl, rfl,
   C4_rename_failure_shape stRemote worldRenameNoSuch "/a" "/b" "NoSuchFile" rfl rfl rfl⟩

/-- C5: on a connected remote client, when the underlying client yields a
directory listing, the facade `list` returns `{success: true, data}` where
`data` is the entry-by-entry image of the listing in the same order
(`List.map`), and the mapping preserves the `type`, `name`, `size`,
`modifyTime` and `accessTime` fields of every entry. -/
theorem C5_list_preserves (st : SFTPClientState) (w : World) (p : String)
    (entries : List RemoteEntry)
    (hconn : SFTPClient.isConnected st = true)
    (hloc : SFTPClient.isLocalhost st = false)
    (hw : w.clientList p = .ok entries) :
    SFTPClient.list st w p =
      (.ok { success := true, message := "Files listed successfully",
             data := some (.files (entries.map SFTPClient.mapRemoteEntry)) },
       [⟨"client", "list", [p]⟩]) ∧
    (∀ i : Nat, (entries.map SFTPClient.mapRemoteEntry)[i]? =
      (entries[i]?).map SFTPClient.mapRemoteEntry) ∧
    (∀ e : RemoteEntry,
      (SFTPClient.mapRemoteEntry e).type = e.type ∧
      (SFTPClient.mapRemoteEntry e).name = e.name ∧
      (SFTPClient.mapRemoteEntry e).size = e.size ∧
      (SFTPClient.mapRemoteEntry e).modifyTime = e.modifyTime ∧
      (SFTPClient.mapRemoteEntry e).accessTime = e.accessTime) := by
  rw [SFTPClient.isConnected] at hconn
  refine ⟨?_, fun i => ?_, fun e => ⟨rfl, rfl, rfl, rfl, rfl⟩⟩
  · simp [SFTPClient.list, SFTPClient.checkConnection, hconn, hloc, hw]
  · simp [List.getElem?_map]

theorem C5_list_preserves_witness :
    worldListTwo.clientList "/home/user" = .ok [entryDocs, entryATxt] ∧
    SFTPClient.list stRemote worldListTwo "/home/user" =
      (.ok { success := true, message := "Files listed successfully",
             data := some (.files
               [SFTPClient.mapRemoteEntry entryDocs, SFTPClient.mapRemoteEntry entryATxt]) },
       [⟨"client", "list", ["/home/user"]⟩]) :=
  ⟨rfl,
   (C5_list_preserves stRemote worldListTwo "/home/user" [entryDocs, entryATxt]
      rfl rfl rfl).1⟩

end SftpJs

namespace SftpJs

/-- C6 counterexample: connecting with host `localhost:2222` succeeds
through the SFTP client (`client.connect` appears in the trace) — it is
not one of the passthrough hosts `localhost`/`127.0.0.1` — yet the
subsequent `list` runs on the local filesystem branch (`fs.readdirSync`),
so the two variants are mixed mid-session, contradicting the claim that
every operation after such a connect goes through the SFTP client. -/
theorem C6_counterexample :
    (SFTPClient.connect defaultWorld cfgMixed).1.success = true ∧
    cfgMixed.host ≠ "localhost" ∧ cfgMixed.host ≠ "127.0.0.1" ∧
    (SFTPClient.connect defaultWorld cfgMixed).2.2 =
      [⟨"client", "connect", ["localhost", "2222"]⟩] ∧
    (runOp (.list "/") (SFTPClient.connect defaultWorld cfgMixed).2.1 defaultWorld).2 =
      [⟨"fs", "readdirSync", ["/"]⟩] :=
  ⟨rfl, by decide, by decide, rfl, rfl⟩

/-- C6 (amended): the passthrough mode is determined by the stored
hostname. After a connect whose host is exactly `localhost` or
`127.0.0.1`, every operation's I/O trace avoids the SFTP client entirely;
after a connect whose hostname part (before any `:port` suffix) is
neither `localhost` nor `127.0.0.1`, every operation's I/O goes through
the SFTP client only. (For hosts such as `localhost:2222` the connect
itself uses the SFTP client but later operations use the local
filesystem, so the original unconditional claim fails.) -/
theorem C6_mode_selection (cfg : SFTPConfig) (w : World) :
    ((cfg.host = "localhost" ∨ cfg.host = "127.0.0.1") →
      ∀ (o : FacadeOp) (w₂ : World) (c : IOCall),
        c ∈ (runOp o (SFTPClient.connect w cfg).2.1 w₂).2 → c.iface ≠ "client") ∧
    ((parsedHost cfg.host ≠ "localhost" ∧ parsedHost cfg.host ≠ "127.0.0.1") →
      ∀ (o : FacadeOp) (w₂ : World) (c : IOCall),
        c ∈ (runOp o (SFTPClient.connect w cfg).2.1 w₂).2 → c.iface = "client") := by
  constructor
  · intro h o w₂ c hc
    have hl : SFTPClient.isLocalhost (SFTPClient.connect w cfg).2.1 = true := by
      rw [connect_localhost w cfg h]
      rcases h with h | h <;> simp [SFTPClient.isLocalhost, h]
    rcases runOp_local_iface o _ w₂ hl c hc with hf | hp
    · rw [hf]; decide
    · rw [hp]; decide
  · intro h o w₂ c hc
    have hl : SFTPClient.isLocalhost (SFTPClient.connect w cfg).2.1 = false := by
      rw [connect_isLocalhost]
      simp [h.1, h.2]
    exact runOp_remote_iface o _ w₂ hl c hc

theorem C6_mode_selection_witness :
    (cfgLocal.host = "localhost" ∨ cfgLocal.host = "127.0.0.1") ∧
    (⟨"fs", "readdirSync", ["/"]⟩ : IOCall).iface ≠ "client" :=
  ⟨Or.inl rfl,
   (C6_mode_selection cfgLocal defaultWorld).1 (Or.inl rfl) (.list "/") defaultWorld
     ⟨"fs", "readdirSync", ["/"]⟩ (by decide)⟩

/-- C8: a connect whose host is exactly `localhost` or `127.0.0.1`
returns `{success: true, message: 'Connected to localhost'}`, marks the
client connected, and performs no I/O at all (so no credential is needed
and no server is contacted) — for any oracle and any credential fields;
for any other host, a config with neither password nor private key makes
connect return a failure result. -/
theorem C8_connect_behaviour (w : World) (cfg : SFTPConfig) :
    ((cfg.host = "localhost" ∨ cfg.host = "127.0.0.1") →
      SFTPClient.connect w cfg =
        ({ success := true, message := "Connected to localhost" },
         { connected := true, config := some cfg }, [])) ∧
    (cfg.host ≠ "localhost" → cfg.host ≠ "127.0.0.1" →
      cfg.password = none → cfg.privateKey = none →
      (SFTPClient.connect w cfg).1.success = false) := by
  constructor
  · exact connect_localhost w cfg
  · intro h1 h2 hp hk
    rw [SFTPClient.connect]
    simp [h1, h2, hp, hk, strTruthy, SFTPClient.authRequiredFailure]

theorem C8_connect_behaviour_witness :
    SFTPClient.connect defaultWorld cfgLocal =
      ({ success := true, message := "Connected to localhost" },
       { connected := true, config := some cfgLocal }, []) ∧
    (SFTPClient.connect defaultWorld cfgNoAuth).1.success = false :=
  ⟨(C8_connect_behaviour defaultWorld cfgLocal).1 (Or.inl rfl),
   (C8_connect_behaviour defaultWorld cfgNoAuth).2 (by decide) (by decide) rfl rfl⟩

/-- C9: on a localhost session, `get(a, b)` and `put(a, b)` are the same
operation — equal results, states untouched, equal traces — and likewise
`getDir(a, b)` and `putDir(a, b)`; on a connected session the single
filesystem call is `copyFileSync(a, b)`, i.e. both copy from `a` to `b`
ignoring the direction the operation names. -/
theorem C9_local_get_put_identical (st : SFTPClientState) (w : World) (a b : String)
    (hloc : SFTPClient.isLocalhost st = true) :
    SFTPClient.get st w a b = SFTPClient.put st w a b ∧
    SFTPClient.getDir st w a b = SFTPClient.putDir st w a b ∧
    (SFTPClient.isConnected st = true →
      (SFTPClient.put st w a b).2 = [⟨"fs", "copyFileSync", [a, b]⟩]) := by
  refine ⟨?_, ?_, fun hc => ?_⟩
  · simp [SFTPClient.get, SFTPClient.put, SFTPClient.getLocal, hloc]
  · simp [SFTPClient.getDir, SFTPClient.putDir, SFTPClient.getDirLocal, hloc]
  · rw [SFTPClient.isConnected] at hc
    cases hfc : w.fsCopyFile a b <;>
      simp [SFTPClient.put, SFTPClient.putLocal, SFTPClient.checkConnection, hloc, hc, hfc]

theorem C9_local_get_put_identical_witness :
    SFTPClient.isLocalhost stLocal = true ∧
    SFTPClient.get stLocal defaultWorld "/x" "/y" =
      SFTPClient.put stLocal defaultWorld "/x" "/y" ∧
    (SFTPClient.put stLocal defaultWorld "/x" "/y").2 =
      [⟨"fs", "copyFileSync", ["/x", "/y"]⟩] :=
  ⟨rfl, (C9_local_get_put_identical stLocal defaultWorld "/x" "/y" rfl).1,
   (C9_local_get_put_identical stLocal defaultWorld "/x" "/y" rfl).2.2 rfl⟩

/-- C10: whenever `connect` returns a failure result, the client is left
not connected (`isConnected()` is `false`), and every subsequent facade
operation behaves exactly as on a freshly constructed client: it fails
the `NotConnected` precondition check with no I/O. -/
theorem C10_connect_atomic (w : World) (cfg : SFTPConfig)
    (h : (SFTPClient.connect w cfg).1.success = false) :
    SFTPClient.isConnected (SFTPClient.connect w cfg).2.1 = false ∧
    ∀ (o : FacadeOp) (w₂ : World),
      runOp o (SFTPClient.connect w cfg).2.1 w₂ = runOp o initialState w₂ := by
  have hnc := connect_fail_not_connected w cfg h
  refine ⟨hnc, fun o w₂ => ?_⟩
  rw [notConnected_runOp o _ w₂ hnc, notConnected_runOp o initialState w₂ rfl]

theorem C10_connect_atomic_witness :
    (SFTPClient.connect defaultWorld cfgNoAuth).1.success = false ∧
    SFTPClient.isConnected (SFTPClient.connect defaultWorld cfgNoAuth).2.1 = false ∧
    runOp (.stat "/f") (SFTPClient.connect defaultWorld cfgNoAuth).2.1 defaultWorld =
      runOp (.stat "/f") initialState defaultWorld :=
  ⟨rfl, (C10_connect_atomic defaultWorld cfgNoAuth rfl).1,
   (C10_connect_atomic defaultWorld cfgNoAuth rfl).2 (.stat "/f") defaultWorld⟩

end SftpJs

namespace WireCodec

/-- C7: for every valid SFTP protocol message of the spec-modelled wire
codec, `decode (encode m) = .ok m`; `encode` and `decode` are pure Lean
functions (no I/O, no shared state) by construction. -/
theorem C7_codec_roundtrip (m : SftpMessage) (h : m.Wf) :
    decode (encode m) = .ok m :=
  decode_encode m h

theorem C7_codec_roundtrip_witness :
    (SftpMessage.rename 7 [47, 97] [47, 98]).Wf ∧
    decode (encode (SftpMessage.rename 7 [47, 97] [47, 98])) =
      .ok (SftpMessage.rename 7 [47, 97] [47, 98]) :=
  ⟨⟨⟨by decide, by decide, by decide⟩, by decide⟩,
   C7_codec_roundtrip _ ⟨⟨by decide, by decide, by decide⟩, by decide⟩⟩

end WireCodec
